import Mathlib

/-!
# Verification of the kops legacy node-label reconciler

Shallow embedding of `cmd/kops-controller/controllers/legacy_node_controller.go`.

Go string-keyed maps are embedded as association lists `List (String × String)`
(Go maps have unique keys; where a proof needs that, it carries a
`NodupKeys` hypothesis).  External collaborators (the node API client, the
vfs cache backing store, the manifest decoder, the identity provider, the
patch call) are fields of an `Env` record; the reconciler is a function of
that record.  The embedded `Reconcile` additionally counts how many times it
invoked the identity provider, the patch call and the cache read, so that
"exactly once" / "no patch call" claims become statements about those
counters.
-/

namespace LegacyNode

/-- Map lookup on an association list, mirroring Go `m[k]` (comma-ok form). -/
def lookupA (xs : List (String × String)) (k : String) : Option String :=
  match xs with
  | [] => none
  | (k', v) :: rest => if k' = k then some v else lookupA rest k

/-- Go `m[k]` in value position: absent keys yield the zero value `""`. -/
def lookupD (xs : List (String × String)) (k : String) : String :=
  (lookupA xs k).getD ""

/-- Go map assignment `m[k] = v`: replace the entry if present, else add it. -/
def insertA (xs : List (String × String)) (k v : String) : List (String × String) :=
  match xs with
  | [] => [(k, v)]
  | (k', v') :: rest => if k' = k then (k', v) :: rest else (k', v') :: insertA rest k v

/-- The keys of an association list. -/
def keysA (xs : List (String × String)) : List String :=
  xs.map Prod.fst

/-- A Go map, embedded as an association list, has pairwise distinct keys. -/
def NodupKeys (xs : List (String × String)) : Prop :=
  (keysA xs).Nodup

/-- `nodelabels.RoleLabelMaster16`.  Modelled from the spec: the constant
lives in `pkg/nodelabels`, outside the excerpted source; the spec describes a
fixed enumerated set of managed role-label keys across label-scheme
generations. -/
def roleLabelMaster16 : String := "node-role.kubernetes.io/master"

/-- `nodelabels.RoleLabelAPIServer16`.  Modelled from the spec (see
`roleLabelMaster16`). -/
def roleLabelAPIServer16 : String := "node-role.kubernetes.io/api-server"

/-- `nodelabels.RoleLabelNode16`.  Modelled from the spec (see
`roleLabelMaster16`). -/
def roleLabelNode16 : String := "node-role.kubernetes.io/node"

/-- `nodelabels.RoleLabelControlPlane20`.  Modelled from the spec (see
`roleLabelMaster16`). -/
def roleLabelControlPlane20 : String := "node-role.kubernetes.io/control-plane"

/-- The fixed enumerated managed-key set: exactly the four cases of the
`switch` at lines 138–139 of the source. -/
def managedKeys : List String :=
  [roleLabelMaster16, roleLabelAPIServer16, roleLabelNode16, roleLabelControlPlane20]

/-- The diff loop at lines 127–133: every desired entry that is absent from
the node's current labels, or present with a different value, goes into
`updateLabels`.  `lookupA L k ≠ some v` is exactly Go's `!found || actual != v`. -/
def updateLabels (nodeLabels labels : List (String × String)) : List (String × String) :=
  labels.filter fun kv => decide (lookupA nodeLabels kv.1 ≠ some kv.2)

/-- The prune loop at lines 135–144: every current key that is one of the
four managed keys and is absent from the desired labels goes into
`deleteLabels`. -/
def deleteLabels (nodeLabels labels : List (String × String)) : List String :=
  (nodeLabels.filter fun kv =>
    decide (kv.1 ∈ managedKeys ∧ lookupA labels kv.1 = none)).map Prod.fst

/-- Modelled from the spec: `patchNodeLabels` (defined outside the excerpted
source) applies a single partial patch that sets every key of `upd`, removes
every key of `del`, and leaves labels not mentioned untouched.  This is its
pointwise effect on the node's label map. -/
def applyPatch (nodeLabels upd : List (String × String)) (del : List String)
    (k : String) : Option String :=
  if k ∈ del then none
  else
    match lookupA upd k with
    | some v => some v
    | none => lookupA nodeLabels k

/-- The key derived at line 124: `"node-role.kubernetes.io/<lifecycle>-worker"`. -/
def lifecycleKey (lifecycle : String) : String :=
  "node-role.kubernetes.io/" ++ lifecycle ++ "-worker"

/-- Lines 123–125: when the lifecycle class is non-empty, the desired map
gains the derived lifecycle key with value `"true"`. -/
def desiredLabels (built : List (String × String)) (lifecycle : String) :
    List (String × String) :=
  if 0 < lifecycle.length then insertA built (lifecycleKey lifecycle) "true" else built

instance {ε α : Type} [DecidableEq ε] [DecidableEq α] : DecidableEq (Except ε α)
  | .error a, .error b => decidable_of_iff (a = b) (by simp)
  | .error _, .ok _ => isFalse (by simp)
  | .ok _, .error _ => isFalse (by simp)
  | .ok a, .ok b => decidable_of_iff (a = b) (by simp)

/-- `corev1.Node`, restricted to the fields the controller reads: name,
label map, and `Spec.ProviderID`. -/
structure Node where
  name : String
  labels : List (String × String)
  providerID : String
deriving DecidableEq

/-- `api.Cluster`, content-opaque: the label policy consuming it is external. -/
structure Cluster where
  name : String
deriving DecidableEq

/-- `api.InstanceGroup`, content-opaque. -/
structure InstanceGroup where
  name : String
deriving DecidableEq

/-- `nodeidentity.Info`, restricted to the fields the controller reads. -/
structure Identity where
  instanceGroup : String
  instanceLifecycle : String
deriving DecidableEq

/-- Result of decoding manifest bytes (`kopscodecs.Decode`): a typed object
that may or may not be the expected type. -/
inductive KopsObject where
  | cluster (c : Cluster)
  | instanceGroup (g : InstanceGroup)
  | other (typeName : String)
deriving DecidableEq

/-- Result of `r.client.Get` for the requested node. -/
inductive GetNodeResult where
  | ok (n : Node)
  | notFound (msg : String)
  | otherErr (msg : String)
deriving DecidableEq

/-- The reconciler's external collaborators, fixed for the duration of one
reconcile pass.  Bytes are modelled as `String`. -/
structure Env where
  /-- `r.client.Get` on the request's node. -/
  getNode : GetNodeResult
  /-- `r.configBase`: the parsed base path of the config store. -/
  configBase : String
  /-- `r.cache.Read p ttl`: read-through cached bytes at a path. -/
  cacheRead : String → Except String String
  /-- `kopscodecs.Decode` on raw manifest bytes. -/
  decode : String → Except String KopsObject
  /-- `r.identifier.IdentifyNode` for the requested node. -/
  identify : Except String Identity
  /-- `nodelabels.BuildNodeLabels` (external label policy). -/
  buildNodeLabels : Cluster → InstanceGroup → Except String (List (String × String))
  /-- outcome of the `patchNodeLabels` call, when one is made. -/
  patch : Except String Unit

/-- Modelled from the spec: `registry.PathClusterCompleted` (outside the
excerpted source) is the fixed well-known relative path of the completed
cluster manifest. -/
def pathClusterCompleted : String := "cluster-completed.spec"

/-- `vfs.Path.Join`, modelled as `/`-separated concatenation. -/
def joinPath (base rel : String) : String := base ++ "/" ++ rel

/-- The cluster manifest path: `r.configBase.Join(registry.PathClusterCompleted)`. -/
def clusterPath (env : Env) : String := joinPath env.configBase pathClusterCompleted

/-- The instance-group manifest path: `r.configBase.Join("instancegroup", name)`. -/
def igPath (env : Env) (name : String) : String :=
  joinPath env.configBase ("instancegroup/" ++ name)

/-- `loadCluster` (lines 213–229): read bytes through the cache, decode, and
require the result to be a `Cluster`; every failure is wrapped with the path. -/
def loadCluster (env : Env) (p : String) : Except String Cluster :=
  match env.cacheRead p with
  | .error e => .error ("error loading Cluster \x22" ++ p ++ "\x22: " ++ e)
  | .ok b =>
    match env.decode b with
    | .error e => .error ("error parsing Cluster \x22" ++ p ++ "\x22: " ++ e)
    | .ok (.cluster c) => .ok c
    | .ok _ => .error ("unexpected object type for Cluster \x22" ++ p ++ "\x22")

/-- `getClusterForNode` (lines 167–174). -/
def getClusterForNode (env : Env) : Except String Cluster :=
  loadCluster env (clusterPath env)

/-- `loadNamedInstanceGroup` (lines 232–252). -/
def loadNamedInstanceGroup (env : Env) (name : String) : Except String InstanceGroup :=
  let p := igPath env name
  match env.cacheRead p with
  | .error e => .error ("error loading InstanceGroup \x22" ++ p ++ "\x22: " ++ e)
  | .ok b =>
    match env.decode b with
    | .error e => .error ("error parsing " ++ p ++ ": " ++ e)
    | .ok (.instanceGroup g) => .ok g
    | .ok _ => .error ("unexpected type, expected InstanceGroup")

/-- Result of `getInstanceGroupForNode`, instrumented with how many identity
lookups and cache reads the call performed. -/
structure IGResult where
  res : Except String InstanceGroup
  identCalls : Nat
  reads : Nat
deriving DecidableEq

/-- `getInstanceGroupForNode` (lines 187–210): trust the explicit
`kops.k8s.io/instancegroup` label when non-empty, else fall back to the
identity provider keyed by the node's providerID. -/
def getInstanceGroupForNode (env : Env) (node : Node) : IGResult :=
  let instanceGroupName := lookupD node.labels "kops.k8s.io/instancegroup"
  if instanceGroupName = "" then
    if node.providerID = "" then
      ⟨.error ("node providerID not set for node \x22" ++ node.name ++ "\x22"), 0, 0⟩
    else
      match env.identify with
      | .error e =>
        ⟨.error ("error identifying node \x22" ++ node.name ++ "\x22: " ++ e), 1, 0⟩
      | .ok identity =>
        if identity.instanceGroup = "" then
          ⟨.error ("node \x22" ++ node.name ++ "\x22 did not have an associate instance group"),
            1, 0⟩
        else ⟨loadNamedInstanceGroup env identity.instanceGroup, 1, 1⟩
  else ⟨loadNamedInstanceGroup env instanceGroupName, 0, 1⟩

/-- `getInstanceLifecycle` (lines 177–184): always one identity lookup. -/
def getInstanceLifecycle (env : Env) (node : Node) : Except String String :=
  match env.identify with
  | .error e => .error ("error identifying node \x22" ++ node.name ++ "\x22: " ++ e)
  | .ok identity => .ok identity.instanceLifecycle

/-- Outcome of one reconcile pass: the returned error (`.ok ()` embeds
`(ctrl.Result{}, nil)`), with counters for identity-provider invocations,
patch calls, and cache reads made during the pass. -/
structure Outcome where
  result : Except String Unit
  identifyCalls : Nat
  patchCalls : Nat
  cacheReads : Nat
deriving DecidableEq

/-- `Reconcile` (lines 88–157): fetch the node, load the cluster and
instance-group manifests, build the desired labels, diff, and patch when the
diff is non-empty. -/
def Reconcile (env : Env) : Outcome :=
  match env.getNode with
  | .notFound _ => ⟨.ok (), 0, 0, 0⟩
  | .otherErr e => ⟨.error e, 0, 0, 0⟩
  | .ok node =>
    match getClusterForNode env with
    | .error e =>
      ⟨.error ("unable to load cluster object for node " ++ node.name ++ ": " ++ e), 0, 0, 1⟩
    | .ok cluster =>
      let ig := getInstanceGroupForNode env node
      match ig.res with
      | .error e =>
        ⟨.error ("unable to load instance group object for node " ++ node.name ++ ": " ++ e),
          ig.identCalls, 0, 1 + ig.reads⟩
      | .ok group =>
        match env.buildNodeLabels cluster group with
        | .error e =>
          ⟨.error ("error building node labels for node \x22" ++ node.name ++ "\x22: " ++ e),
            ig.identCalls, 0, 1 + ig.reads⟩
        | .ok built =>
          match getInstanceLifecycle env node with
          | .error e =>
            ⟨.error ("unable to get instance lifecycle " ++ node.name ++ ": " ++ e),
              ig.identCalls + 1, 0, 1 + ig.reads⟩
          | .ok lifecycle =>
            let labels := desiredLabels built lifecycle
            let upd := updateLabels node.labels labels
            let del := deleteLabels node.labels labels
            if upd.length = 0 ∧ del.length = 0 then
              ⟨.ok (), ig.identCalls + 1, 0, 1 + ig.reads⟩
            else
              match env.patch with
              | .error e => ⟨.error e, ig.identCalls + 1, 1, 1 + ig.reads⟩
              | .ok _ => ⟨.ok (), ig.identCalls + 1, 1, 1 + ig.reads⟩

/-- `true` when `pat` is an initial segment of `s`. -/
def startsWithL : List Char → List Char → Bool
  | [], _ => true
  | _ :: _, [] => false
  | a :: as, b :: bs => decide (a = b) && startsWithL as bs

/-- `true` when `pat` occurs as a contiguous run inside `s`. -/
def occursInL (pat : List Char) : List Char → Bool
  | [] => pat.isEmpty
  | c :: rest => startsWithL pat (c :: rest) || occursInL pat rest

/-- `true` when the string `pat` occurs as a substring of `s`. -/
def occursIn (pat s : String) : Bool :=
  occursInL pat.data s.data

/-! ## Concrete scenarios used by the witnesses and counterexamples -/

/-- A request whose node has been deleted before the fetch. -/
def envNotFound : Env where
  getNode := .notFound "nodes \x22n1\x22 not found"
  configBase := "memfs://tests"
  cacheRead := fun _ => .ok ""
  decode := fun _ => .ok (.other "Unknown")
  identify := .ok ⟨"", ""⟩
  buildNodeLabels := fun _ _ => .ok []
  patch := .ok ()

/-- A node with no explicit group label and no providerID. -/
def nodeNoProvider : Node := ⟨"n2", [("app", "x")], ""⟩

/-- Environment for `nodeNoProvider` whose cluster manifest loads fine. -/
def envNoProvider : Env where
  getNode := .ok nodeNoProvider
  configBase := "memfs://tests"
  cacheRead := fun p => .ok p
  decode := fun b =>
    if b = "memfs://tests/cluster-completed.spec" then .ok (.cluster ⟨"c1"⟩)
    else .ok (.other "Unknown")
  identify := .ok ⟨"ig1", ""⟩
  buildNodeLabels := fun _ _ => .ok []
  patch := .ok ()

/-- A node whose labels already coincide with the desired labels. -/
def nodeSteady : Node :=
  ⟨"n3", [("kops.k8s.io/instancegroup", "ig1"), ("node-role.kubernetes.io/node", "true")],
    "aws:///i-3"⟩

/-- Environment for `nodeSteady`: manifests load, the label policy returns
exactly the labels the node already carries, no lifecycle class. -/
def envSteady : Env where
  getNode := .ok nodeSteady
  configBase := "memfs://tests"
  cacheRead := fun p => .ok p
  decode := fun b =>
    if b = "memfs://tests/cluster-completed.spec" then .ok (.cluster ⟨"c1"⟩)
    else if b = "memfs://tests/instancegroup/ig1" then .ok (.instanceGroup ⟨"ig1"⟩)
    else .ok (.other "Unknown")
  identify := .ok ⟨"ig1", ""⟩
  buildNodeLabels := fun _ _ =>
    .ok [("kops.k8s.io/instancegroup", "ig1"), ("node-role.kubernetes.io/node", "true")]
  patch := .error "patch must not be reached"

/-- A node with no explicit group label but a providerID. -/
def nodeUnlabeled : Node := ⟨"n5", [], "aws:///i-5"⟩

/-- Environment for `nodeUnlabeled`: identity resolution succeeds, manifests
load, the whole pass succeeds. -/
def envUnlabeled : Env where
  getNode := .ok nodeUnlabeled
  configBase := "memfs://tests"
  cacheRead := fun p => .ok p
  decode := fun b =>
    if b = "memfs://tests/cluster-completed.spec" then .ok (.cluster ⟨"c1"⟩)
    else .ok (.instanceGroup ⟨"ig1"⟩)
  identify := .ok ⟨"ig1", ""⟩
  buildNodeLabels := fun _ _ => .ok []
  patch := .ok ()

/-- A node with an explicit group label. -/
def nodeLabeled : Node := ⟨"n6", [("kops.k8s.io/instancegroup", "ig1")], "aws:///i-6"⟩

/-- Environment for `nodeLabeled` whose group manifest decodes to the wrong
type. -/
def envWrongType : Env where
  getNode := .ok nodeLabeled
  configBase := "memfs://tests"
  cacheRead := fun p => .ok p
  decode := fun b =>
    if b = "memfs://tests/cluster-completed.spec" then .ok (.cluster ⟨"c1"⟩)
    else .ok (.other "*v1alpha2.Cluster")
  identify := .ok ⟨"ig1", ""⟩
  buildNodeLabels := fun _ _ => .ok []
  patch := .ok ()

/-- Environment for `nodeLabeled` whose cluster manifest bytes fail to
decode. -/
def envBadCluster : Env where
  getNode := .ok nodeLabeled
  configBase := "memfs://tests"
  cacheRead := fun p => .ok p
  decode := fun _ => .error "yaml: unmarshal errors"
  identify := .ok ⟨"ig1", ""⟩
  buildNodeLabels := fun _ _ => .ok []
  patch := .ok ()

/-- Environment for `nodeLabeled` whose identity provider fails. -/
def envIdentityDown : Env where
  getNode := .ok nodeLabeled
  configBase := "memfs://tests"
  cacheRead := fun p => .ok p
  decode := fun b =>
    if b = "memfs://tests/cluster-completed.spec" then .ok (.cluster ⟨"c1"⟩)
    else .ok (.instanceGroup ⟨"ig1"⟩)
  identify := .error "RequestLimitExceeded"
  buildNodeLabels := fun _ _ => .ok []
  patch := .ok ()

/-! ## Lemmas about association-list maps -/

theorem lookupA_eq_none {xs : List (String × String)} {k : String} :
    lookupA xs k = none ↔ k ∉ keysA xs := by
  induction xs with
  | nil => simp [lookupA, keysA]
  | cons hd tl ih =>
    obtain ⟨k', v⟩ := hd
    by_cases h : k' = k
    · subst h
      simp [lookupA, keysA]
    · simp [lookupA, keysA, h, Ne.symm h] at *
      exact ih

theorem lookupA_isSome {xs : List (String × String)} {k : String} :
    (lookupA xs k).isSome = true ↔ k ∈ keysA xs := by
  rw [Option.isSome_iff_ne_none, not_iff_comm, ← lookupA_eq_none]

theorem mem_of_lookupA {xs : List (String × String)} {k v : String}
    (h : lookupA xs k = some v) : (k, v) ∈ xs := by
  induction xs with
  | nil => simp [lookupA] at h
  | cons hd tl ih =>
    obtain ⟨k', v'⟩ := hd
    by_cases hk : k' = k
    · subst hk
      simp [lookupA] at h
      simp [h]
    · simp [lookupA, hk] at h
      simp [ih h]

theorem mem_keysA {xs : List (String × String)} {k : String} :
    k ∈ keysA xs ↔ ∃ v, (k, v) ∈ xs := by
  simp [keysA]

theorem lookupA_of_mem {xs : List (String × String)} {k v : String}
    (h : NodupKeys xs) (hm : (k, v) ∈ xs) : lookupA xs k = some v := by
  induction xs with
  | nil => simp at hm
  | cons hd tl ih =>
    obtain ⟨k', v'⟩ := hd
    have hnd : k' ∉ keysA tl ∧ NodupKeys tl := by
      simpa [NodupKeys, keysA] using h
    rcases List.mem_cons.mp hm with heq | htl
    · obtain ⟨rfl, rfl⟩ := Prod.mk.injEq .. ▸ heq
      simp_all [lookupA]
    · by_cases hk : k' = k
      · subst hk
        exact absurd (mem_keysA.mpr ⟨v, htl⟩) hnd.1
      · simpa [lookupA, hk] using ih hnd.2 htl

theorem nodupKeys_filter {xs : List (String × String)} {p : String × String → Bool}
    (h : NodupKeys xs) : NodupKeys (xs.filter p) :=
  List.Nodup.sublist (List.Sublist.map Prod.fst (List.filter_sublist xs)) h

theorem lookupA_insertA_self {xs : List (String × String)} {k v : String} :
    lookupA (insertA xs k v) k = some v := by
  induction xs with
  | nil => simp [insertA, lookupA]
  | cons hd tl ih =>
    obtain ⟨k', v'⟩ := hd
    by_cases h : k' = k <;> simp [insertA, lookupA, h, ih]

theorem lookupA_insertA_ne {xs : List (String × String)} {k v k' : String}
    (h : k' ≠ k) : lookupA (insertA xs k v) k' = lookupA xs k' := by
  induction xs with
  | nil => simp [insertA, lookupA, Ne.symm h]
  | cons hd tl ih =>
    obtain ⟨a, b⟩ := hd
    by_cases ha : a = k <;> by_cases hb : a = k' <;>
      simp_all [insertA, lookupA]

theorem mem_keysA_insertA {xs : List (String × String)} {k v k' : String} :
    k' ∈ keysA (insertA xs k v) ↔ k' ∈ keysA xs ∨ k' = k := by
  induction xs with
  | nil => simp [insertA, keysA]
  | cons hd tl ih =>
    obtain ⟨a, b⟩ := hd
    by_cases ha : a = k
    · subst ha
      by_cases hb : k' = a <;> simp_all [insertA, keysA]
    · simp only [insertA, if_neg ha, keysA, List.map_cons, List.mem_cons]
      rw [show keysA (insertA tl k v) = (insertA tl k v).map Prod.fst from rfl] at ih
      rw [show keysA tl = tl.map Prod.fst from rfl] at ih
      tauto

/-! ## Characterisation of the diff sets -/

theorem mem_updateLabels {L D : List (String × String)} {k v : String} :
    (k, v) ∈ updateLabels L D ↔ (k, v) ∈ D ∧ lookupA L k ≠ some v := by
  simp [updateLabels, List.mem_filter]

theorem mem_updateLabels_of_nodup {L D : List (String × String)} {k v : String}
    (hD : NodupKeys D) :
    (k, v) ∈ updateLabels L D ↔ lookupA D k = some v ∧ lookupA L k ≠ some v := by
  rw [mem_updateLabels]
  constructor
  · rintro ⟨hm, hne⟩
    exact ⟨lookupA_of_mem hD hm, hne⟩
  · rintro ⟨hl, hne⟩
    exact ⟨mem_of_lookupA hl, hne⟩

theorem mem_deleteLabels {L D : List (String × String)} {k : String} :
    k ∈ deleteLabels L D ↔ k ∈ keysA L ∧ k ∈ managedKeys ∧ lookupA D k = none := by
  simp only [deleteLabels, List.mem_map, List.mem_filter]
  constructor
  · rintro ⟨⟨a, b⟩, ⟨hm, hp⟩, rfl⟩
    simp only [decide_eq_true_eq] at hp
    exact ⟨mem_keysA.mpr ⟨b, hm⟩, hp.1, hp.2⟩
  · rintro ⟨hk, hman, hnone⟩
    obtain ⟨v, hv⟩ := mem_keysA.mp hk
    exact ⟨(k, v), ⟨hv, by simp [hman, hnone]⟩, rfl⟩

theorem keysA_updateLabels_sub {L D : List (String × String)} {k : String}
    (h : k ∈ keysA (updateLabels L D)) : k ∈ keysA D := by
  obtain ⟨v, hv⟩ := mem_keysA.mp h
  exact mem_keysA.mpr ⟨v, (mem_updateLabels.mp hv).1⟩

theorem lookupA_updateLabels {L D : List (String × String)} {k : String}
    (hD : NodupKeys D) :
    lookupA (updateLabels L D) k =
      match lookupA D k with
      | some v => if lookupA L k ≠ some v then some v else none
      | none => none := by
  have hnd : NodupKeys (updateLabels L D) := nodupKeys_filter hD
  cases hDk : lookupA D k with
  | none =>
    simp only []
    rw [lookupA_eq_none]
    intro hk
    exact absurd (keysA_updateLabels_sub hk) (lookupA_eq_none.mp hDk)
  | some v =>
    by_cases hL : lookupA L k ≠ some v
    · simp only [if_pos hL]
      exact lookupA_of_mem hnd (mem_updateLabels_of_nodup hD |>.mpr ⟨hDk, hL⟩)
    · simp only [if_neg hL]
      rw [lookupA_eq_none]
      intro hk
      obtain ⟨v', hv'⟩ := mem_keysA.mp hk
      obtain ⟨hD', hne⟩ := mem_updateLabels_of_nodup hD |>.mp hv'
      rw [hDk] at hD'
      cases hD'
      exact hne (not_not.mp hL)

/-! ## String-level facts about the derived lifecycle key -/

theorem lifecycleKey_data (x : String) :
    (lifecycleKey x).data =
      "node-role.kubernetes.io/".data ++ x.data ++ "-worker".data := by
  simp [lifecycleKey]

theorem lifecycleKey_rev3 (x : String) :
    ((lifecycleKey x).data.reverse.take 3) = ['r', 'e', 'k'] := by
  rw [lifecycleKey_data, List.reverse_append, List.reverse_append,
    List.take_append_of_le_length (by decide)]
  decide

/-- The derived lifecycle key is never one of the four managed role-label
keys: the third character from its end is `k` (from `-worker`), while the
managed keys end in `ter`, `ver`, `ode`, `ane`. -/
theorem lifecycleKey_not_managed (x : String) : lifecycleKey x ∉ managedKeys := by
  intro h
  have h3 := lifecycleKey_rev3 x
  simp only [managedKeys, roleLabelMaster16, roleLabelAPIServer16, roleLabelNode16,
    roleLabelControlPlane20, List.mem_cons, List.not_mem_nil, or_false] at h
  rcases h with h | h | h | h <;> rw [h] at h3 <;> exact absurd h3 (by decide)

theorem lifecycleKey_inj {x y : String} (h : lifecycleKey x = lifecycleKey y) : x = y := by
  have hd := congrArg String.data h
  rw [lifecycleKey_data, lifecycleKey_data, List.append_assoc, List.append_assoc] at hd
  exact String.ext (List.append_cancel_right (List.append_cancel_left hd))

/-! ## Substring occurrence (used to state that an error message mentions a path) -/

theorem startsWithL_append (pat rest : List Char) :
    startsWithL pat (pat ++ rest) = true := by
  induction pat with
  | nil => rfl
  | cons a as ih => simp [startsWithL, ih]

theorem occursInL_of_startsWithL {pat s : List Char}
    (h : startsWithL pat s = true) : occursInL pat s = true := by
  cases s with
  | nil =>
    cases pat with
    | nil => rfl
    | cons a as => simp [startsWithL] at h
  | cons c t => simp [occursInL, h]

theorem occursInL_cons {pat s : List Char} (c : Char)
    (h : occursInL pat s = true) : occursInL pat (c :: s) = true := by
  simp [occursInL, h]

theorem occursInL_append {pat s : List Char} (x : List Char)
    (h : occursInL pat s = true) : occursInL pat (x ++ s) = true := by
  induction x with
  | nil => simpa using h
  | cons c t ih => simpa using occursInL_cons c ih

/-- Any string of the shape `a ++ pat ++ b` contains `pat`. -/
theorem occursIn_of_shape (pat a b : String) :
    occursIn pat (a ++ pat ++ b) = true := by
  show occursInL pat.data (a ++ pat ++ b).data = true
  rw [String.data_append, String.data_append, List.append_assoc]
  exact occursInL_append a.data
    (occursInL_of_startsWithL (startsWithL_append pat.data b.data))

/-! ## Claim theorems -/

/-- C1: for every current-label map `L` and desired map `D`, the update set
is exactly the set of desired entries absent from `L` or differing in value,
the delete set is exactly the set of current managed keys absent from `D`,
the two sets are disjoint, and applying the patch to `L` yields a map that
agrees with `D` on every desired or managed key and leaves every other key
of `L` unchanged. -/
theorem diff_correctness (L D : List (String × String)) (hD : NodupKeys D) :
    (∀ k v, (k, v) ∈ updateLabels L D ↔ lookupA D k = some v ∧ lookupA L k ≠ some v)
    ∧ (∀ k, k ∈ deleteLabels L D ↔ k ∈ keysA L ∧ k ∈ managedKeys ∧ lookupA D k = none)
    ∧ (∀ k, k ∈ keysA (updateLabels L D) → k ∉ deleteLabels L D)
    ∧ (∀ k, ((lookupA D k).isSome = true ∨ k ∈ managedKeys) →
        applyPatch L (updateLabels L D) (deleteLabels L D) k = lookupA D k)
    ∧ (∀ k, lookupA D k = none → k ∉ managedKeys →
        applyPatch L (updateLabels L D) (deleteLabels L D) k = lookupA L k) := by
  refine ⟨fun k v => mem_updateLabels_of_nodup hD, fun k => mem_deleteLabels, ?_, ?_, ?_⟩
  · intro k hk hdel
    obtain ⟨-, -, hnone⟩ := mem_deleteLabels.mp hdel
    exact (lookupA_eq_none.mp hnone) (keysA_updateLabels_sub hk)
  · intro k hk
    by_cases hdel : k ∈ deleteLabels L D
    · obtain ⟨-, -, hnone⟩ := mem_deleteLabels.mp hdel
      simp [applyPatch, hdel, hnone]
    · unfold applyPatch
      rw [if_neg hdel, lookupA_updateLabels hD]
      cases hDk : lookupA D k with
      | some v =>
        by_cases hL : lookupA L k ≠ some v
        · simp [hL]
        · simp only [if_neg hL]
          simpa using (not_not.mp hL)
      | none =>
        rcases hk with hk | hk
        · rw [hDk] at hk
          simp at hk
        · have hkL : k ∉ keysA L := fun hkL =>
            hdel (mem_deleteLabels.mpr ⟨hkL, hk, hDk⟩)
          simpa using lookupA_eq_none.mpr hkL
  · intro k hnone hman
    have hdel : k ∉ deleteLabels L D := fun h => hman (mem_deleteLabels.mp h).2.1
    unfold applyPatch
    rw [if_neg hdel, lookupA_updateLabels hD, hnone]

/-- Witness for C1 at a concrete pair of label maps: the final map agrees
with the desired map on the managed key `master` (which gets deleted). -/
theorem diff_correctness_witness :
    applyPatch [("node-role.kubernetes.io/master", "true"), ("app", "x")]
      (updateLabels [("node-role.kubernetes.io/master", "true"), ("app", "x")]
        [("node-role.kubernetes.io/node", "true"), ("app", "x")])
      (deleteLabels [("node-role.kubernetes.io/master", "true"), ("app", "x")]
        [("node-role.kubernetes.io/node", "true"), ("app", "x")])
      "node-role.kubernetes.io/master" =
    lookupA [("node-role.kubernetes.io/node", "true"), ("app", "x")]
      "node-role.kubernetes.io/master" :=
  (diff_correctness [("node-role.kubernetes.io/master", "true"), ("app", "x")]
    [("node-role.kubernetes.io/node", "true"), ("app", "x")]
    (by unfold NodupKeys; decide)).2.2.2.1
    "node-role.kubernetes.io/master" (Or.inr (by decide))

/-- C2: every key in the delete set is a managed key, and a current key that
is neither desired nor managed lands in neither the update nor the delete
set. -/
theorem unrelated_labels_untouched (L D : List (String × String)) :
    (∀ k, k ∈ deleteLabels L D → k ∈ managedKeys)
    ∧ (∀ k, k ∈ keysA L → lookupA D k = none → k ∉ managedKeys →
        k ∉ keysA (updateLabels L D) ∧ k ∉ deleteLabels L D) := by
  refine ⟨fun k h => (mem_deleteLabels.mp h).2.1, ?_⟩
  intro k hkL hnone hman
  refine ⟨fun h => (lookupA_eq_none.mp hnone) (keysA_updateLabels_sub h),
    fun h => hman (mem_deleteLabels.mp h).2.1⟩

/-- Witness for C2: the unmanaged, undesired label `app` is disturbed by
neither diff set. -/
theorem unrelated_labels_untouched_witness :
    "app" ∉ keysA (updateLabels [("app", "x")] [])
    ∧ "app" ∉ deleteLabels [("app", "x")] [] :=
  (unrelated_labels_untouched [("app", "x")] []).2 "app" (by decide) (by decide)
    (by decide)

/-- C10: a stale lifecycle-derived key `node-role.kubernetes.io/<x>-worker`
(with `x` different from the current lifecycle class, and not produced by the
label policy) is in neither diff set — it is not among the four managed
keys — so the patch leaves it on the node with its old value. -/
theorem stale_lifecycle_label_not_pruned (L built : List (String × String))
    (x cur v : String) (hx : x ≠ cur) (hL : NodupKeys L)
    (hmem : (lifecycleKey x, v) ∈ L)
    (hnb : lookupA built (lifecycleKey x) = none) :
    lifecycleKey x ∉ deleteLabels L (desiredLabels built cur)
    ∧ lifecycleKey x ∉ keysA (updateLabels L (desiredLabels built cur))
    ∧ applyPatch L (updateLabels L (desiredLabels built cur))
        (deleteLabels L (desiredLabels built cur)) (lifecycleKey x) = some v := by
  have hkey : lookupA (desiredLabels built cur) (lifecycleKey x) = none := by
    unfold desiredLabels
    by_cases hc : 0 < cur.length
    · rw [if_pos hc, lookupA_insertA_ne (fun h => hx (lifecycleKey_inj h))]
      exact hnb
    · rw [if_neg hc]
      exact hnb
  have hdel : lifecycleKey x ∉ deleteLabels L (desiredLabels built cur) :=
    fun h => lifecycleKey_not_managed x (mem_deleteLabels.mp h).2.1
  have hupd : lifecycleKey x ∉ keysA (updateLabels L (desiredLabels built cur)) :=
    fun h => (lookupA_eq_none.mp hkey) (keysA_updateLabels_sub h)
  refine ⟨hdel, hupd, ?_⟩
  unfold applyPatch
  rw [if_neg hdel, lookupA_eq_none.mpr hupd]
  exact lookupA_of_mem hL hmem

/-- Witness for C10: a `spot-worker` label survives a reconcile whose current
lifecycle class is empty. -/
theorem stale_lifecycle_label_not_pruned_witness :
    lifecycleKey "spot" ∉
      deleteLabels [(lifecycleKey "spot", "true")] (desiredLabels [] "")
    ∧ lifecycleKey "spot" ∉
      keysA (updateLabels [(lifecycleKey "spot", "true")] (desiredLabels [] ""))
    ∧ applyPatch [(lifecycleKey "spot", "true")]
        (updateLabels [(lifecycleKey "spot", "true")] (desiredLabels [] ""))
        (deleteLabels [(lifecycleKey "spot", "true")] (desiredLabels [] ""))
        (lifecycleKey "spot") = some "true" :=
  stale_lifecycle_label_not_pruned [(lifecycleKey "spot", "true")] [] "spot" "" "true"
    (by decide) (by unfold NodupKeys; decide) (by decide) (by decide)

/-- C4: when the node fetch fails with a not-found error, the pass returns
success and performs nothing else: no cache read, no identity lookup, no
patch call. -/
theorem notFound_is_success (env : Env) (msg : String)
    (h : env.getNode = .notFound msg) :
    Reconcile env = ⟨.ok (), 0, 0, 0⟩ := by
  unfold Reconcile
  rw [h]

/-- Witness for C4: a deleted node yields a silent success. -/
theorem notFound_is_success_witness :
    Reconcile envNotFound = ⟨.ok (), 0, 0, 0⟩ :=
  notFound_is_success envNotFound "nodes \x22n1\x22 not found" rfl

/-- C6: a node with no explicit group label and an empty providerID makes
group resolution fail with the validation error, without invoking the
identity provider, and the pass aborts reporting that error (wrapped with the
node name) with no patch call. -/
theorem missing_providerID_aborts (env : Env) (node : Node) (cluster : Cluster)
    (hn : env.getNode = .ok node)
    (hc : getClusterForNode env = .ok cluster)
    (hlab : lookupD node.labels "kops.k8s.io/instancegroup" = "")
    (hpid : node.providerID = "") :
    getInstanceGroupForNode env node =
      ⟨.error ("node providerID not set for node \x22" ++ node.name ++ "\x22"), 0, 0⟩
    ∧ Reconcile env =
      ⟨.error ("unable to load instance group object for node " ++ node.name ++ ": " ++
        ("node providerID not set for node \x22" ++ node.name ++ "\x22")), 0, 0, 1⟩ := by
  have hig : getInstanceGroupForNode env node =
      ⟨.error ("node providerID not set for node \x22" ++ node.name ++ "\x22"), 0, 0⟩ := by
    simp [getInstanceGroupForNode, hlab, hpid]
  refine ⟨hig, ?_⟩
  simp [Reconcile, hn, hc, hig]

/-- Witness for C6 on a concrete environment. -/
theorem missing_providerID_aborts_witness :
    getInstanceGroupForNode envNoProvider nodeNoProvider =
      ⟨.error ("node providerID not set for node \x22" ++ "n2" ++ "\x22"), 0, 0⟩
    ∧ Reconcile envNoProvider =
      ⟨.error ("unable to load instance group object for node " ++ "n2" ++ ": " ++
        ("node providerID not set for node \x22" ++ "n2" ++ "\x22")), 0, 0, 1⟩ :=
  missing_providerID_aborts envNoProvider nodeNoProvider ⟨"c1"⟩ rfl rfl rfl rfl

/-- C9: even when the group was resolved from the explicit label (no identity
fallback needed), the lifecycle step still invokes the identity provider, and
a provider failure there aborts the pass with a reported error and no patch
call. -/
theorem lifecycle_requires_identity (env : Env) (node : Node) (cluster : Cluster)
    (group : InstanceGroup) (built : List (String × String)) (g e : String)
    (hn : env.getNode = .ok node)
    (hlab : lookupD node.labels "kops.k8s.io/instancegroup" = g)
    (hg : g ≠ "")
    (hc : getClusterForNode env = .ok cluster)
    (hig : loadNamedInstanceGroup env g = .ok group)
    (hb : env.buildNodeLabels cluster group = .ok built)
    (hid : env.identify = .error e) :
    getInstanceGroupForNode env node = ⟨.ok group, 0, 1⟩
    ∧ Reconcile env =
      ⟨.error ("unable to get instance lifecycle " ++ node.name ++ ": " ++
        ("error identifying node \x22" ++ node.name ++ "\x22: " ++ e)), 1, 0, 2⟩ := by
  have higr : getInstanceGroupForNode env node = ⟨.ok group, 0, 1⟩ := by
    simp [getInstanceGroupForNode, hlab, hg, hig]
  have hlc : getInstanceLifecycle env node =
      .error ("error identifying node \x22" ++ node.name ++ "\x22: " ++ e) := by
    simp [getInstanceLifecycle, hid]
  refine ⟨higr, ?_⟩
  simp [Reconcile, hn, hc, higr, hb, hlc]

/-- Witness for C9: an explicitly labeled node still hits the provider, whose
outage aborts the pass. -/
theorem lifecycle_requires_identity_witness :
    getInstanceGroupForNode envIdentityDown nodeLabeled = ⟨.ok ⟨"ig1"⟩, 0, 1⟩
    ∧ Reconcile envIdentityDown =
      ⟨.error ("unable to get instance lifecycle " ++ "n6" ++ ": " ++
        ("error identifying node \x22" ++ "n6" ++ "\x22: " ++ "RequestLimitExceeded")),
        1, 0, 2⟩ :=
  lifecycle_requires_identity envIdentityDown nodeLabeled ⟨"c1"⟩ ⟨"ig1"⟩ [] "ig1"
    "RequestLimitExceeded" rfl rfl (by decide) rfl rfl rfl rfl

/-- C3: when the node already carries every desired label with an equal
value and every managed label it carries is still desired, both diff sets
are empty, the pass makes no patch call and returns success. -/
theorem idempotent_no_patch (env : Env) (node : Node) (cluster : Cluster)
    (group : InstanceGroup) (built : List (String × String)) (lifecycle : String)
    (hn : env.getNode = .ok node)
    (hc : getClusterForNode env = .ok cluster)
    (hg : (getInstanceGroupForNode env node).res = .ok group)
    (hb : env.buildNodeLabels cluster group = .ok built)
    (hl : getInstanceLifecycle env node = .ok lifecycle)
    (hcur : ∀ kv ∈ desiredLabels built lifecycle, lookupA node.labels kv.1 = some kv.2)
    (hman : ∀ kv ∈ node.labels, kv.1 ∈ managedKeys →
      lookupA (desiredLabels built lifecycle) kv.1 ≠ none) :
    updateLabels node.labels (desiredLabels built lifecycle) = []
    ∧ deleteLabels node.labels (desiredLabels built lifecycle) = []
    ∧ (Reconcile env).result = .ok () ∧ (Reconcile env).patchCalls = 0 := by
  have hupd : updateLabels node.labels (desiredLabels built lifecycle) = [] := by
    rw [updateLabels, List.filter_eq_nil_iff]
    intro kv hkv
    simp [hcur kv hkv]
  have hdel : deleteLabels node.labels (desiredLabels built lifecycle) = [] := by
    rw [deleteLabels, List.map_eq_nil_iff, List.filter_eq_nil_iff]
    intro kv hkv
    simp only [decide_eq_true_eq, not_and]
    exact fun hm => hman kv hkv hm
  have hrec : Reconcile env = ⟨.ok (), (getInstanceGroupForNode env node).identCalls + 1,
      0, 1 + (getInstanceGroupForNode env node).reads⟩ := by
    simp [Reconcile, hn, hc, hg, hb, hl, hupd, hdel]
  exact ⟨hupd, hdel, by rw [hrec], by rw [hrec]⟩

/-- Witness for C3 on a node whose labels already match the policy. -/
theorem idempotent_no_patch_witness :
    updateLabels nodeSteady.labels
      (desiredLabels [("kops.k8s.io/instancegroup", "ig1"),
        ("node-role.kubernetes.io/node", "true")] "") = []
    ∧ deleteLabels nodeSteady.labels
      (desiredLabels [("kops.k8s.io/instancegroup", "ig1"),
        ("node-role.kubernetes.io/node", "true")] "") = []
    ∧ (Reconcile envSteady).result = .ok () ∧ (Reconcile envSteady).patchCalls = 0 :=
  idempotent_no_patch envSteady nodeSteady ⟨"c1"⟩ ⟨"ig1"⟩
    [("kops.k8s.io/instancegroup", "ig1"), ("node-role.kubernetes.io/node", "true")] ""
    rfl rfl rfl rfl rfl (by decide) (by decide)

/-- The identity-provider invocation count of a pass that gets past the node
fetch and ends in success: one invocation inside group resolution plus the
unconditional one of the lifecycle step. -/
theorem reconcile_ok_identifyCalls (env : Env) (node : Node)
    (hn : env.getNode = .ok node)
    (hok : (Reconcile env).result = .ok ()) :
    (Reconcile env).identifyCalls = (getInstanceGroupForNode env node).identCalls + 1 := by
  unfold Reconcile at hok ⊢
  rw [hn] at hok ⊢
  cases hc : getClusterForNode env with
  | error e => simp [hc] at hok
  | ok cluster =>
    simp only [hc] at hok ⊢
    cases hg : (getInstanceGroupForNode env node).res with
    | error e => simp [hg] at hok
    | ok group =>
      simp only [hg] at hok ⊢
      cases hb : env.buildNodeLabels cluster group with
      | error e => simp [hb] at hok
      | ok built =>
        simp only [hb] at hok ⊢
        cases hl : getInstanceLifecycle env node with
        | error e => simp [hl] at hok
        | ok lc =>
          simp only [hl] at hok ⊢
          by_cases hif : (updateLabels node.labels (desiredLabels built lc)).length = 0
              ∧ (deleteLabels node.labels (desiredLabels built lc)).length = 0
          · simp [hif]
          · simp only [if_neg hif]
            cases hp : env.patch <;> simp [hp]

/-- C5 counterexample: a full reconcile pass on a node with no explicit group
label and a non-empty providerID invokes the identity provider twice — once
for group resolution and once for the lifecycle — not exactly once. -/
theorem identity_called_once_counterexample :
    lookupD nodeUnlabeled.labels "kops.k8s.io/instancegroup" = ""
    ∧ nodeUnlabeled.providerID ≠ ""
    ∧ envUnlabeled.getNode = .ok nodeUnlabeled
    ∧ (Reconcile envUnlabeled).result = .ok ()
    ∧ (Reconcile envUnlabeled).identifyCalls = 2
    ∧ (Reconcile envUnlabeled).identifyCalls ≠ 1 :=
  ⟨rfl, by decide, rfl, rfl, rfl, by decide⟩

/-- C5 amended: for a node with no explicit group label and a non-empty
providerID, group resolution invokes the identity provider exactly once, and
a pass that returns success invokes it exactly twice (once more at the
lifecycle step). -/
theorem identity_called_once_per_step (env : Env) (node : Node)
    (hlab : lookupD node.labels "kops.k8s.io/instancegroup" = "")
    (hpid : node.providerID ≠ "") :
    (getInstanceGroupForNode env node).identCalls = 1
    ∧ (env.getNode = .ok node → (Reconcile env).result = .ok () →
        (Reconcile env).identifyCalls = 2) := by
  have h1 : (getInstanceGroupForNode env node).identCalls = 1 := by
    unfold getInstanceGroupForNode
    rw [hlab]
    simp only [if_pos rfl, if_neg hpid]
    cases env.identify with
    | error e => rfl
    | ok identity => by_cases h : identity.instanceGroup = "" <;> simp [h]
  refine ⟨h1, fun hn hok => ?_⟩
  rw [reconcile_ok_identifyCalls env node hn hok, h1]

/-- Witness for C5's amended statement on a concrete successful pass. -/
theorem identity_called_once_per_step_witness :
    (getInstanceGroupForNode envUnlabeled nodeUnlabeled).identCalls = 1
    ∧ (Reconcile envUnlabeled).identifyCalls = 2 :=
  ⟨(identity_called_once_per_step envUnlabeled nodeUnlabeled rfl (by decide)).1,
    (identity_called_once_per_step envUnlabeled nodeUnlabeled rfl (by decide)).2 rfl rfl⟩

/-- A non-empty string has positive length. -/
theorem length_pos_of_ne_empty {s : String} (h : s ≠ "") : 0 < s.length := by
  rcases Nat.eq_zero_or_pos s.length with h0 | hp
  · exact absurd (String.ext (List.length_eq_zero.mp h0)) h
  · exact hp

/-- C7: a non-empty lifecycle class adds exactly the single derived key
`node-role.kubernetes.io/<lifecycleClass>-worker` with value `"true"` to the
built labels, leaving every other key unchanged; an empty lifecycle class
adds nothing. -/
theorem lifecycle_label_added (built : List (String × String)) (lifecycle : String) :
    (lifecycle ≠ "" →
      desiredLabels built lifecycle = insertA built (lifecycleKey lifecycle) "true"
      ∧ lookupA (desiredLabels built lifecycle) (lifecycleKey lifecycle) = some "true"
      ∧ (∀ k, k ≠ lifecycleKey lifecycle →
          lookupA (desiredLabels built lifecycle) k = lookupA built k)
      ∧ (∀ k, k ∈ keysA (desiredLabels built lifecycle) ↔
          k ∈ keysA built ∨ k = lifecycleKey lifecycle))
    ∧ (lifecycle = "" → desiredLabels built lifecycle = built) := by
  constructor
  · intro h
    have hlen : 0 < lifecycle.length := length_pos_of_ne_empty h
    unfold desiredLabels
    rw [if_pos hlen]
    exact ⟨rfl, lookupA_insertA_self, fun k hk => lookupA_insertA_ne hk,
      fun k => mem_keysA_insertA⟩
  · intro h
    subst h
    rfl

/-- Witness for C7 at a concrete label map, once with lifecycle `spot` and
once with an empty lifecycle. -/
theorem lifecycle_label_added_witness :
    desiredLabels [("a", "b")] "spot" = insertA [("a", "b")] (lifecycleKey "spot") "true"
    ∧ lookupA (desiredLabels [("a", "b")] "spot") (lifecycleKey "spot") = some "true"
    ∧ desiredLabels [("a", "b")] "" = [("a", "b")] :=
  ⟨((lifecycle_label_added [("a", "b")] "spot").1 (by decide)).1,
    ((lifecycle_label_added [("a", "b")] "spot").1 (by decide)).2.1,
    (lifecycle_label_added [("a", "b")] "").2 rfl⟩

/-- C8 amended: a cluster manifest that fails to decode or decodes to the
wrong type aborts the pass with an error that mentions the cluster path, with
no patch call; a group manifest decoding to a non-InstanceGroup likewise
aborts the pass with no patch call (its error carries the node name, not the
group path). -/
theorem decode_failure_aborts (env : Env) (node : Node)
    (hn : env.getNode = .ok node) :
    (∀ b, env.cacheRead (clusterPath env) = .ok b →
      ((∃ e, env.decode b = .error e)
        ∨ (∃ o, env.decode b = .ok o ∧ ∀ c, o ≠ .cluster c)) →
      ∃ m, Reconcile env = ⟨.error m, 0, 0, 1⟩ ∧ occursIn (clusterPath env) m = true)
    ∧ (∀ b cluster g, getClusterForNode env = .ok cluster →
        lookupD node.labels "kops.k8s.io/instancegroup" = g → g ≠ "" →
        env.cacheRead (igPath env g) = .ok b →
        (∃ o, env.decode b = .ok o ∧ ∀ ig, o ≠ .instanceGroup ig) →
        ∃ m, Reconcile env = ⟨.error m, 0, 0, 2⟩) := by
  constructor
  · rintro b hb (⟨e, hd⟩ | ⟨o, hd, hno⟩)
    · have hcl : getClusterForNode env =
          .error ("error parsing Cluster \x22" ++ clusterPath env ++ "\x22: " ++ e) := by
        unfold getClusterForNode loadCluster
        rw [hb]
        simp only [hd]
      refine ⟨"unable to load cluster object for node " ++ node.name ++ ": " ++
        ("error parsing Cluster \x22" ++ clusterPath env ++ "\x22: " ++ e), ?_, ?_⟩
      · simp [Reconcile, hn, hcl]
      · have hshape : "unable to load cluster object for node " ++ node.name ++ ": " ++
            ("error parsing Cluster \x22" ++ clusterPath env ++ "\x22: " ++ e)
            = ("unable to load cluster object for node " ++ node.name ++ ": " ++
              "error parsing Cluster \x22") ++ clusterPath env ++ ("\x22: " ++ e) := by
          apply String.ext
          simp
        rw [hshape]
        exact occursIn_of_shape (clusterPath env) _ _
    · have hcl : getClusterForNode env =
          .error ("unexpected object type for Cluster \x22" ++ clusterPath env ++ "\x22") := by
        unfold getClusterForNode loadCluster
        rw [hb]
        simp only [hd]
      refine ⟨"unable to load cluster object for node " ++ node.name ++ ": " ++
        ("unexpected object type for Cluster \x22" ++ clusterPath env ++ "\x22"), ?_, ?_⟩
      · simp [Reconcile, hn, hcl]
      · have hshape : "unable to load cluster object for node " ++ node.name ++ ": " ++
            ("unexpected object type for Cluster \x22" ++ clusterPath env ++ "\x22")
            = ("unable to load cluster object for node " ++ node.name ++ ": " ++
              "unexpected object type for Cluster \x22") ++ clusterPath env ++ "\x22" := by
          apply String.ext
          simp
        rw [hshape]
        exact occursIn_of_shape (clusterPath env) _ _
  · rintro b cluster g hc hlab hg hb ⟨o, hd, hno⟩
    have hload : loadNamedInstanceGroup env g =
        .error "unexpected type, expected InstanceGroup" := by
      simp only [loadNamedInstanceGroup]
      rw [hb]
      simp only [hd]
    have hig : getInstanceGroupForNode env node =
        ⟨.error "unexpected type, expected InstanceGroup", 0, 1⟩ := by
      simp [getInstanceGroupForNode, hlab, hg, hload]
    refine ⟨"unable to load instance group object for node " ++ node.name ++ ": " ++
      "unexpected type, expected InstanceGroup", ?_⟩
    simp [Reconcile, hn, hc, hig]

/-- Witness for C8: cluster bytes that fail to decode abort the pass and the
error names the cluster path. -/
theorem decode_failure_aborts_witness :
    ∃ m, Reconcile envBadCluster = ⟨.error m, 0, 0, 1⟩
      ∧ occursIn (clusterPath envBadCluster) m = true :=
  (decode_failure_aborts envBadCluster nodeLabeled rfl).1
    "memfs://tests/cluster-completed.spec" rfl (Or.inl ⟨"yaml: unmarshal errors", rfl⟩)

/-- C8 counterexample: when the group manifest decodes to a non-InstanceGroup
the pass aborts with no patch call, but the reported error does not mention
the offending group path — it is wrapped with the node name only. -/
theorem decode_failure_path_counterexample :
    (Reconcile envWrongType).result =
      .error ("unable to load instance group object for node n6: " ++
        "unexpected type, expected InstanceGroup")
    ∧ (Reconcile envWrongType).patchCalls = 0
    ∧ occursIn (igPath envWrongType "ig1")
        ("unable to load instance group object for node n6: " ++
          "unexpected type, expected InstanceGroup") = false :=
  ⟨by decide, by decide, by decide⟩

end LegacyNode
